import Mathlib

/-
  Verification of the HikVisionBridge device-synchronization core.

  Shallow embedding of the pure logic of:
    src/hikvision_sync/models.py         (SyncResultStatus, SyncResult)
    src/hikvision_sync/isapi_client.py   (payload builders, response
                                          classifiers, device operations)
    src/hikvision_sync/orchestration.py  (per-pair orchestration flows)
    src/main.py                          (bulk sync driver loops)

  Network I/O is abstracted by a `Transport` value describing what the
  single HTTP request of an operation would yield (a response with an
  HTTP status, an optional parsed JSON body and a raw text; or a
  timeout / connection error / other exception).  Each device operation
  returns the `SyncResult` the Python function returns together with a
  `Bool` recording whether the network request was issued.  Orchestrators
  are parameterized by the results their sub-operations would return and
  record which sub-operations were invoked.
-/

namespace HikVisionBridge

/- ### String helpers with Python semantics -/

/-- Python `needle is a prefix of hay` on character lists. -/
def charsHasPrefix : List Char → List Char → Bool
  | [], _ => true
  | _ :: _, [] => false
  | n :: ns, h :: hs => n == h && charsHasPrefix ns hs

/-- Python `needle in hay` (substring containment) on character lists. -/
def charsContains : List Char → List Char → Bool
  | [], ns => ns.isEmpty
  | h :: t, ns => charsHasPrefix ns (h :: t) || charsContains t ns

/-- Python `needle in hay` for strings. -/
def strContains (hay needle : String) : Bool :=
  charsContains hay.data needle.data

/-- Python `s.startswith(p)`. -/
def strStartsWith (s p : String) : Bool :=
  charsHasPrefix p.data s.data

/-- Python `s.lower()` (ASCII case folding, as used by the literals here). -/
def strToLower (s : String) : String :=
  ⟨s.data.map Char.toLower⟩

/-- Python `s.strip()`: drop leading and trailing whitespace. -/
def strStrip (s : String) : String :=
  ⟨((s.data.dropWhile Char.isWhitespace).reverse.dropWhile Char.isWhitespace).reverse⟩

/-- Python `s[:n]` (first n characters). -/
def strTake (s : String) (n : Nat) : String :=
  ⟨s.data.take n⟩

/-- Python `s[n:]` (drop the first n characters). -/
def strDrop (s : String) (n : Nat) : String :=
  ⟨s.data.drop n⟩

/-- Python f-string rendering of a value that may be None (an int field). -/
def pyOptIntRepr : Option Int → String
  | none => "None"
  | some n => toString n

/-- Python f-string rendering of a value that may be None (a str field). -/
def pyOptStrRepr : Option String → String
  | none => "None"
  | some s => s

/-- Python truthiness of an optional string (None and the empty string are falsy). -/
def strTruthy : Option String → Bool
  | none => false
  | some s => s != ""

/-- Python truthiness of an optional number (None and 0 are falsy). -/
def natTruthy : Option Nat → Bool
  | none => false
  | some n => n != 0

/- ### Data model (src/hikvision_sync/models.py) -/

/-- Status for sync operations (models.SyncResultStatus). -/
inductive SyncResultStatus where
  | SUCCESS
  | PARTIAL
  | SKIPPED
  | FATAL
deriving DecidableEq, Repr

/-- String value of a status, as in the Python str-Enum. -/
def SyncResultStatus.value : SyncResultStatus → String
  | .SUCCESS => "success"
  | .PARTIAL => "partial"
  | .SKIPPED => "skipped"
  | .FATAL => "fatal"

/-- Result of a sync operation (models.SyncResult). -/
structure SyncResult where
  status : SyncResultStatus
  message : String
  step : String
deriving DecidableEq, Repr

/-- Biometric sub-record of an employee (the `biometrie` dict). -/
structure Biometrie where
  employee_no : Option Nat
  foto_fata_url : Option String
deriving DecidableEq, Repr

/-- Employee record (the `angajat` dict fields the core reads). -/
structure Angajat where
  biometrie : Biometrie
  nume : String
  prenume : String
  nume_complet : String
  status : String
deriving DecidableEq, Repr

/-- Device record (the `device` dict fields the core reads). -/
structure Device where
  id : Option String
  ip_address : Option String
  ip : Option String
  port : Option Nat
  username : Option String
  password_encrypted : Option String
  password : Option String
deriving DecidableEq, Repr

/-- Parsed JSON body of an ISAPI response: the four fields the classifiers
read, with the defaults `dict.get` supplies when a field is absent. -/
structure IsapiBody where
  statusCode : Option Int
  subStatusCode : String
  statusString : String
  errorMsg : String
deriving DecidableEq, Repr

/-- What the single HTTP request of a device operation yields.  `resp`
carries the HTTP status, the parsed JSON body (`none` when `response.json()`
raises) and the raw response text; the other constructors are the
exceptions the Python code catches. -/
inductive Transport where
  | resp (status : Nat) (body : Option IsapiBody) (text : String)
  | timeout (exc : String)
  | connError (exc : String)
  | otherError (exc : String)
deriving DecidableEq, Repr

/- ### Response classifiers (src/hikvision_sync/isapi_client.py) -/

/-- Embeds `_classify_delete_response` (isapi_client.py lines 296-346). -/
def classify_delete_response (status : Nat) (body : Option IsapiBody) (text : String) : SyncResult :=
  if status = 401 then
    ⟨.FATAL, "Authentication failed - invalid device credentials", "delete"⟩
  else
    match body with
    | some data =>
      if data.statusCode = some 1 ∧ data.subStatusCode = "ok" then
        ⟨.SUCCESS, "User deleted successfully", "delete"⟩
      else if data.statusCode = some 6 ∨ strContains (strToLower data.statusString) "not found" = true
          ∨ strContains (strToLower data.statusString) "does not exist" = true then
        ⟨.SUCCESS, "User not found on device (already deleted or never existed)", "delete"⟩
      else
        let error_msg := if data.errorMsg = "" then data.statusString else data.errorMsg
        ⟨.PARTIAL,
          "ISAPI error: statusCode=" ++ pyOptIntRepr data.statusCode
            ++ ", subStatusCode=" ++ data.subStatusCode
            ++ ", statusString=" ++ data.statusString
            ++ ", errorMsg=" ++ error_msg,
          "delete"⟩
    | none =>
      if status ≠ 200 then
        ⟨.FATAL, "HTTP " ++ toString status ++ ": " ++ strTake text 200, "delete"⟩
      else
        ⟨.FATAL, "HTTP 200 but failed to parse response: " ++ strTake text 200, "delete"⟩

/-- Embeds `_classify_person_response` (isapi_client.py lines 349-397). -/
def classify_person_response (status : Nat) (body : Option IsapiBody) (text : String) : SyncResult :=
  if status = 401 then
    ⟨.FATAL, "Authentication failed - invalid device credentials", "person"⟩
  else
    match body with
    | some data =>
      if data.statusCode = some 1 ∧ data.subStatusCode = "ok" then
        ⟨.SUCCESS, "Person created/updated successfully", "person"⟩
      else if data.statusCode = some 6 ∧ data.subStatusCode = "employeeNoAlreadyExist" then
        ⟨.SUCCESS, "Person already exists on device", "person"⟩
      else
        let error_msg := if data.errorMsg = "" then data.statusString else data.errorMsg
        ⟨.FATAL,
          "ISAPI error: statusCode=" ++ pyOptIntRepr data.statusCode
            ++ ", subStatusCode=" ++ data.subStatusCode
            ++ ", errorMsg=" ++ error_msg,
          "person"⟩
    | none =>
      if status ≠ 200 then
        ⟨.FATAL, "HTTP " ++ toString status ++ ": " ++ strTake text 200, "person"⟩
      else
        ⟨.FATAL, "HTTP 200 but failed to parse response: " ++ strTake text 200, "person"⟩

/-- Embeds the inline response classification of `add_face_image_to_device`
(isapi_client.py lines 633-665).  Note there is no HTTP 401 branch. -/
def classify_face_add_response (status : Nat) (body : Option IsapiBody) (text : String) : SyncResult :=
  match body with
  | some data =>
    if data.statusCode = some 1 ∧ data.subStatusCode = "ok" then
      ⟨.SUCCESS, "Face image added successfully", "photo"⟩
    else if data.statusCode = some 6 ∧ data.subStatusCode = "deviceUserAlreadyExistFace" then
      ⟨.SUCCESS, "Face image already exists on device", "photo"⟩
    else
      let error_msg := if data.errorMsg = "" then data.statusString else data.errorMsg
      ⟨.PARTIAL,
        "Face image failed: statusCode=" ++ pyOptIntRepr data.statusCode
          ++ ", subStatusCode=" ++ data.subStatusCode
          ++ ", errorMsg=" ++ error_msg,
        "photo"⟩
  | none =>
    if status = 200 then
      ⟨.SUCCESS, "Face image added successfully", "photo"⟩
    else
      ⟨.PARTIAL, "Face image failed: HTTP " ++ toString status ++ " - " ++ strTake text 200, "photo"⟩

/-- Embeds the inline response classification of `update_face_image_to_device`
(isapi_client.py lines 743-777).  Note there is no HTTP 401 branch, and the
success rule also accepts a case-insensitive statusString of "ok". -/
def classify_face_update_response (status : Nat) (body : Option IsapiBody) (text : String) : SyncResult :=
  match body with
  | some data =>
    if data.statusCode = some 1 ∧ (data.subStatusCode = "ok" ∨ strToLower data.statusString = "ok") then
      ⟨.SUCCESS, "Face image updated successfully (PUT)", "photo"⟩
    else if data.statusCode = some 6 ∧ (strContains data.subStatusCode "alreadyExist" = true
        ∨ strContains data.statusString "alreadyExist" = true) then
      ⟨.SUCCESS, "Face image already exists on device (PUT)", "photo"⟩
    else
      let error_msg := if data.errorMsg = "" then data.statusString else data.errorMsg
      ⟨.PARTIAL,
        "Face image update failed: statusCode=" ++ pyOptIntRepr data.statusCode
          ++ ", subStatusCode=" ++ data.subStatusCode
          ++ ", statusString=" ++ data.statusString
          ++ ", errorMsg=" ++ error_msg,
        "photo"⟩
  | none =>
    if status = 200 then
      ⟨.SUCCESS, "Face image updated successfully (PUT)", "photo"⟩
    else
      ⟨.PARTIAL, "Face image update failed: HTTP " ++ toString status ++ " - " ++ strTake text 200, "photo"⟩

/- ### Payload builders (src/hikvision_sync/isapi_client.py) -/

/-- UserInfo payload built by `_build_person_payload` (lines 92-139). -/
structure PersonPayload where
  employeeNo : String
  name : String
  userType : String
  valid_enable : Bool
  beginTime : String
  endTime : String
  timeType : String
  doorRight : String
  doorNo : Nat
  planTemplateNo : String
  userVerifyMode : String
  localUIRight : Bool
deriving DecidableEq, Repr

/-- Embeds `_build_person_payload` (lines 92-139); `.error` is the raised
ValueError's message. -/
def build_person_payload (a : Angajat) : Except String PersonPayload :=
  if natTruthy a.biometrie.employee_no = false then
    .error "employee_no is required for sync"
  else
    let nume := strStrip a.nume
    let prenume := strStrip a.prenume
    let name := if nume ≠ "" ∧ prenume ≠ "" then nume ++ " " ++ prenume
      else if strStrip a.nume_complet ≠ "" then strStrip a.nume_complet
      else "Unknown"
    let is_active := strToLower a.status = "activ"
    .ok
      { employeeNo := toString (a.biometrie.employee_no.getD 0)
        name := name
        userType := "normal"
        valid_enable := is_active
        beginTime := "2025-10-10T00:00:00"
        endTime := "2037-12-31T23:59:59"
        timeType := "local"
        doorRight := "1"
        doorNo := 1
        planTemplateNo := "1"
        userVerifyMode := "face"
        localUIRight := false }

/-- Face payload built by `_build_face_image_payload` (lines 142-179). -/
structure FacePayload where
  faceLibType : String
  FDID : String
  FPID : String
  faceURL : String
deriving DecidableEq, Repr

/-- Face update payload built by `_build_face_image_update_payload`
(lines 182-220); the update variant adds the fixed faceID field. -/
structure FaceUpdatePayload where
  faceLibType : String
  FDID : String
  FPID : String
  faceID : String
  faceURL : String
deriving DecidableEq, Repr

/-- URL normalization shared by the face payload builders (lines 160-171 and
200-211): resolve a bare filename against the storage base, then rewrite the
scheme to https when the URL is an insecure supabase.co URL.  Returns the
ValueError message when the reference is a bare filename and no base was
supplied. -/
def normalize_face_url (foto : String) (supabase_url : Option String) : Except String String :=
  if strStartsWith foto "http://" = false ∧ strStartsWith foto "https://" = false
      ∧ strTruthy supabase_url = false then
    .error ("foto_fata_url is just a filename ('" ++ foto
      ++ "') but supabase_url not provided to construct full URL")
  else
    let resolved := if strStartsWith foto "http://" = false ∧ strStartsWith foto "https://" = false
      then supabase_url.getD "" ++ "/storage/v1/object/public/pontaj-photos/" ++ foto
      else foto
    let secured := if strStartsWith resolved "http://" = true ∧ strContains resolved ".supabase.co" = true
      then "https://" ++ strDrop resolved 7
      else resolved
    .ok secured

/-- Embeds `_build_face_image_payload` (lines 142-179). -/
def build_face_image_payload (a : Angajat) (supabase_url : Option String) : Except String FacePayload :=
  if natTruthy a.biometrie.employee_no = false then
    .error "employee_no is required for face image sync"
  else if strTruthy a.biometrie.foto_fata_url = false then
    .error "foto_fata_url is required for face image sync"
  else
    match normalize_face_url (a.biometrie.foto_fata_url.getD "") supabase_url with
    | .error e => .error e
    | .ok url =>
      .ok
        { faceLibType := "blackFD"
          FDID := "1"
          FPID := toString (a.biometrie.employee_no.getD 0)
          faceURL := url }

/-- Embeds `_build_face_image_update_payload` (lines 182-220). -/
def build_face_image_update_payload (a : Angajat) (supabase_url : Option String) : Except String FaceUpdatePayload :=
  if natTruthy a.biometrie.employee_no = false then
    .error "employee_no is required for face image update"
  else if strTruthy a.biometrie.foto_fata_url = false then
    .error "foto_fata_url is required for face image update"
  else
    match normalize_face_url (a.biometrie.foto_fata_url.getD "") supabase_url with
    | .error e => .error e
    | .ok url =>
      .ok
        { faceLibType := "blackFD"
          FDID := "1"
          FPID := toString (a.biometrie.employee_no.getD 0)
          faceID := "1"
          faceURL := url }

/-- Projection of the faceURL field out of a face payload build result. -/
def facePayloadURL : Except String FacePayload → Option String
  | .ok p => some p.faceURL
  | .error _ => none

/-- Deletion payload built by `_build_delete_user_payload` (lines 268-293). -/
structure DeletePayload where
  mode : String
  employeeNo : String
  operateType : String
  terminalNoList : List Nat
deriving DecidableEq, Repr

/-- Embeds `_build_delete_user_payload` (lines 268-293). -/
def build_delete_user_payload (a : Angajat) : Except String DeletePayload :=
  if natTruthy a.biometrie.employee_no = false then
    .error "employee_no is required for user deletion"
  else
    .ok
      { mode := "byEmployeeNo"
        employeeNo := toString (a.biometrie.employee_no.getD 0)
        operateType := "byTerminal"
        terminalNoList := [1] }

/- ### URL and port construction shared by all device operations -/

/-- Port substitution performed before building every request URL
(for example isapi_client.py lines 508-511): default a falsy configured
port to 80, then silently replace the known-wrong port 8000 by 80. -/
def effective_port (configured : Option Nat) : Nat :=
  let port := match configured with
    | none => 80
    | some n => if n = 0 then 80 else n
  if port = 8000 then 80 else port

/-- Device address chosen by `device.get("ip_address") or device.get("ip")`. -/
def device_ip_field (d : Device) : Option String :=
  if strTruthy d.ip_address then d.ip_address else d.ip

/-- Request URL built by each device operation (for example line 512). -/
def isapi_request_url (d : Device) (path : String) : String :=
  "http://" ++ pyOptStrRepr (device_ip_field d) ++ ":" ++ toString (effective_port d.port) ++ path

/- ### Device operations (src/hikvision_sync/isapi_client.py) -/

/-- Embeds `create_person_on_device` (lines 493-575): build the payload,
issue the request, classify the response; transport failures and any other
exception (including the builder's ValueError, which no dedicated handler
catches) map to FATAL.  The Bool records whether the request was issued. -/
def create_person_on_device (device : Device) (a : Angajat) (t : Transport) : SyncResult × Bool :=
  match build_person_payload a with
  | .error e => (⟨.FATAL, "Unexpected error: " ++ e, "person"⟩, false)
  | .ok _ =>
    match t with
    | .resp status body text => (classify_person_response status body text, true)
    | .timeout exc =>
      (⟨.FATAL, "Request timeout - device " ++ pyOptStrRepr device.ip_address
          ++ " not responding: " ++ exc, "person"⟩, true)
    | .connError exc =>
      (⟨.FATAL, "Connection error - device " ++ pyOptStrRepr device.ip_address
          ++ " unreachable: " ++ exc, "person"⟩, true)
    | .otherError exc => (⟨.FATAL, "Unexpected error: " ++ exc, "person"⟩, true)

/-- Embeds the ISAPI-level `delete_user_from_device` (lines 400-490): the
builder's ValueError has a dedicated handler mapping it to SKIPPED; transport
failures and other exceptions map to FATAL. -/
def delete_user_from_device_isapi (device : Device) (a : Angajat) (t : Transport) : SyncResult × Bool :=
  match build_delete_user_payload a with
  | .error e => (⟨.SKIPPED, "Missing employee_no - cannot delete user: " ++ e, "delete"⟩, false)
  | .ok _ =>
    match t with
    | .resp status body text => (classify_delete_response status body text, true)
    | .timeout exc =>
      (⟨.FATAL, "Request timeout - device " ++ pyOptStrRepr device.ip_address
          ++ " not responding: " ++ exc, "delete"⟩, true)
    | .connError exc =>
      (⟨.FATAL, "Connection error - device " ++ pyOptStrRepr device.ip_address
          ++ " unreachable: " ++ exc, "delete"⟩, true)
    | .otherError exc => (⟨.FATAL, "Unexpected error: " ++ exc, "delete"⟩, true)

/-- Embeds `add_face_image_to_device` (lines 578-684): every failure path,
including the builder's ValueError (caught by the generic handler) and all
transport failures, maps to PARTIAL; there is no FATAL path. -/
def add_face_image_to_device (device : Device) (a : Angajat) (supabase_url : Option String)
    (t : Transport) : SyncResult × Bool :=
  match build_face_image_payload a supabase_url with
  | .error e => (⟨.PARTIAL, "Unexpected error: " ++ e, "photo"⟩, false)
  | .ok _ =>
    match t with
    | .resp status body text => (classify_face_add_response status body text, true)
    | .timeout _ =>
      (⟨.PARTIAL, "Request timeout - device " ++ pyOptStrRepr device.ip_address
          ++ " not responding", "photo"⟩, true)
    | .connError _ =>
      (⟨.PARTIAL, "Connection error - device " ++ pyOptStrRepr device.ip_address
          ++ " unreachable", "photo"⟩, true)
    | .otherError exc => (⟨.PARTIAL, "Unexpected error: " ++ exc, "photo"⟩, true)

/-- Embeds `update_face_image_to_device` (lines 687-796): every failure path,
including the builder's ValueError (caught by the generic handler) and all
transport failures, maps to PARTIAL to keep the POST fallback available. -/
def update_face_image_to_device (device : Device) (a : Angajat) (supabase_url : Option String)
    (t : Transport) : SyncResult × Bool :=
  match build_face_image_update_payload a supabase_url with
  | .error e => (⟨.PARTIAL, "Unexpected error: " ++ e, "photo"⟩, false)
  | .ok _ =>
    match t with
    | .resp status body text => (classify_face_update_response status body text, true)
    | .timeout _ =>
      (⟨.PARTIAL, "Request timeout - device " ++ pyOptStrRepr device.ip_address
          ++ " not responding", "photo"⟩, true)
    | .connError _ =>
      (⟨.PARTIAL, "Connection error - device " ++ pyOptStrRepr device.ip_address
          ++ " unreachable", "photo"⟩, true)
    | .otherError exc => (⟨.PARTIAL, "Unexpected error: " ++ exc, "photo"⟩, true)

/- ### Orchestration (src/hikvision_sync/orchestration.py)

  Each orchestrator is parameterized by the SyncResult its sub-operation
  calls would return (the sub-operations themselves are modelled above) and
  additionally returns which sub-operations were actually invoked. -/

/-- Embeds `sync_angajat_to_device` (orchestration.py lines 8-97).
`personResult` is what `create_person_on_device` would return and
`photoResult` what `add_face_image_to_device` would return; the Bool is
whether the photo step was invoked. -/
def sync_angajat_to_device (a : Angajat) (personResult photoResult : SyncResult) : SyncResult × Bool :=
  if natTruthy a.biometrie.employee_no = false then
    (⟨.SKIPPED, "Missing employee_no - cannot sync without employee number", "validation"⟩, false)
  else if personResult.status = .FATAL then
    (personResult, false)
  else if personResult.status = .SKIPPED then
    (personResult, false)
  else if strContains (strToLower personResult.message) "already exists" = true
      ∨ strContains (strToLower personResult.message) "already exist" = true then
    (⟨.SUCCESS,
      personResult.message ++ ". Photo step skipped (person already exists on device)",
      "person"⟩, false)
  else if strTruthy a.biometrie.foto_fata_url = false then
    (⟨.SUCCESS,
      "Person created successfully. No photo URL available - photo step skipped",
      "person"⟩, false)
  else if photoResult.status = .SUCCESS then
    (⟨.SUCCESS, "Person and photo synced successfully", "complete"⟩, true)
  else
    (⟨.PARTIAL,
      "Person created successfully, but photo sync failed: " ++ photoResult.message,
      "photo"⟩, true)

/-- Embeds `sync_photo_only_to_device` (orchestration.py lines 100-153). -/
def sync_photo_only_to_device (a : Angajat) (photoResult : SyncResult) : SyncResult × Bool :=
  if natTruthy a.biometrie.employee_no = false then
    (⟨.SKIPPED, "Missing employee_no - cannot sync photo without employee number", "validation"⟩, false)
  else if strTruthy a.biometrie.foto_fata_url = false then
    (⟨.SKIPPED, "Missing foto_fata_url - cannot sync photo without photo URL", "validation"⟩, false)
  else
    (photoResult, true)

/-- Embeds `update_photo_to_device` (orchestration.py lines 156-240).
`putResult` is what the PUT `update_face_image_to_device` would return and
`postResult` what the POST fallback `add_face_image_to_device` would return;
the two Bools are whether the PUT and the POST were invoked. -/
def update_photo_to_device (a : Angajat) (putResult postResult : SyncResult) :
    SyncResult × Bool × Bool :=
  if natTruthy a.biometrie.employee_no = false then
    (⟨.SKIPPED, "Missing employee_no - cannot update photo without employee number", "validation"⟩,
      false, false)
  else if strTruthy a.biometrie.foto_fata_url = false then
    (⟨.SKIPPED, "Missing foto_fata_url - cannot update photo without photo URL", "validation"⟩,
      false, false)
  else if putResult.status = .SUCCESS then
    (⟨.SUCCESS, "Face image updated successfully via PUT", "photo"⟩, true, false)
  else if postResult.status = .SUCCESS then
    (⟨.SUCCESS,
      "PUT update failed, but photo created successfully via POST fallback. PUT error: "
        ++ putResult.message,
      "photo"⟩, true, true)
  else
    (⟨.PARTIAL,
      "Both PUT update and POST create failed. PUT error: " ++ putResult.message
        ++ ". POST error: " ++ postResult.message,
      "photo"⟩, true, true)

/-- Embeds the orchestration-level `delete_user_from_device`
(orchestration.py lines 243-285). -/
def delete_user_from_device (a : Angajat) (deleteResult : SyncResult) : SyncResult × Bool :=
  if natTruthy a.biometrie.employee_no = false then
    (⟨.SKIPPED, "Missing employee_no - cannot delete user without employee number", "validation"⟩, false)
  else
    (deleteResult, true)

/- ### Bulk sync driver (src/main.py) -/

/-- Summary counters keyed by outcome kind (the `summary` dict of
`sync_angajat_all_devices`, main.py lines 365-370). -/
structure Summary where
  success_count : Nat
  partial_count : Nat
  skipped_count : Nat
  fatal_count : Nat
deriving DecidableEq, Repr

/-- Increment of `summary[result.status.value]` (main.py line 393). -/
def Summary.bump (s : Summary) (st : SyncResultStatus) : Summary :=
  match st with
  | .SUCCESS => { s with success_count := s.success_count + 1 }
  | .PARTIAL => { s with partial_count := s.partial_count + 1 }
  | .SKIPPED => { s with skipped_count := s.skipped_count + 1 }
  | .FATAL => { s with fatal_count := s.fatal_count + 1 }

/-- Per-device record appended by the driver loop (main.py lines 384-390). -/
structure PerDeviceRecord where
  device_id : String
  device_ip : String
  status : String
  message : String
  step : String
deriving DecidableEq, Repr

/-- Builds one per-device record (main.py lines 377-390). -/
def mkPerDeviceRecord (d : Device) (r : SyncResult) : PerDeviceRecord :=
  { device_id := d.id.getD "unknown"
    device_ip := d.ip_address.getD "unknown"
    status := r.status.value
    message := r.message
    step := r.step }

/-- One iteration of the driver loop of `sync_angajat_all_devices`
(main.py lines 376-397): append the record and bump the summary. -/
def device_loop_step (op : Device → SyncResult) (acc : List PerDeviceRecord × Summary)
    (d : Device) : List PerDeviceRecord × Summary :=
  let r := op d
  (acc.1 ++ [mkPerDeviceRecord d r], acc.2.bump r.status)

/-- Embeds the driver loop of `sync_angajat_all_devices` (main.py lines
363-397): iterate over every device, appending one record per device and
tallying the outcome kinds.  `op` gives the per-device Outcome. -/
def run_device_loop (devices : List Device) (op : Device → SyncResult) :
    List PerDeviceRecord × Summary :=
  devices.foldl (device_loop_step op) ([], ⟨0, 0, 0, 0⟩)

/-- Per-device record of the inner loop of `sync_all_to_all_devices`
(main.py lines 649-653). -/
structure DeviceResultRecord where
  deviceId : String
  success : Bool
  error : Option String
deriving DecidableEq, Repr

/-- Builds one inner-loop record (main.py lines 639-653): the device counts
as successful when the outcome kind is success or partial, and carries the
outcome message as error otherwise. -/
def mkDeviceResultRecord (d : Device) (r : SyncResult) : DeviceResultRecord :=
  let device_success := r.status.value = "success" ∨ r.status.value = "partial"
  { deviceId := d.id.getD "unknown"
    success := device_success
    error := if device_success then none else some r.message }

/-- One iteration of the inner device loop of `sync_all_to_all_devices`
(main.py lines 638-663), tracking the per-angajat summary. -/
def all_loop_step (op : Device → SyncResult) (acc : List DeviceResultRecord × Summary)
    (d : Device) : List DeviceResultRecord × Summary :=
  let r := op d
  (acc.1 ++ [mkDeviceResultRecord d r], acc.2.bump r.status)

/-- Embeds the inner device loop of `sync_all_to_all_devices` (main.py lines
628-663) for one angajat: iterate over every device, recording each result
and tallying the outcome kinds into the per-angajat summary. -/
def run_all_devices_loop (devices : List Device) (op : Device → SyncResult) :
    List DeviceResultRecord × Summary :=
  devices.foldl (all_loop_step op) ([], ⟨0, 0, 0, 0⟩)

/- ### Helper lemmas -/

/-- Face-add classification has no FATAL branch. -/
theorem classify_face_add_response_ne_fatal (status : Nat) (body : Option IsapiBody) (text : String) :
    (classify_face_add_response status body text).status ≠ .FATAL := by
  cases body with
  | none =>
    simp only [classify_face_add_response]
    split_ifs <;> simp
  | some data =>
    simp only [classify_face_add_response]
    split_ifs <;> simp

/-- Face-update classification has no FATAL branch. -/
theorem classify_face_update_response_ne_fatal (status : Nat) (body : Option IsapiBody) (text : String) :
    (classify_face_update_response status body text).status ≠ .FATAL := by
  cases body with
  | none =>
    simp only [classify_face_update_response]
    split_ifs <;> simp
  | some data =>
    simp only [classify_face_update_response]
    split_ifs <;> simp

/- ### Claim theorems -/

/-- Claim C1 (amended): for vendor responses with HTTP 401, person-create and
person-delete classification return FATAL regardless of body content; the
face-add and face-update classifications have no 401 rule and never return
FATAL for any response. -/
theorem auth_failure_fatal_only_for_person_and_delete (body : Option IsapiBody) (text : String) :
    (classify_person_response 401 body text).status = .FATAL ∧
    (classify_delete_response 401 body text).status = .FATAL ∧
    (classify_face_add_response 401 body text).status ≠ .FATAL ∧
    (classify_face_update_response 401 body text).status ≠ .FATAL := by
  refine ⟨?_, ?_, ?_, ?_⟩
  · simp [classify_person_response]
  · simp [classify_delete_response]
  · exact classify_face_add_response_ne_fatal 401 body text
  · exact classify_face_update_response_ne_fatal 401 body text

/-- Claim C1 counterexample: the face-add classification of an HTTP 401
response with an unparseable body is PARTIAL, not FATAL as claimed. -/
theorem face_add_classification_of_401_not_fatal :
    (classify_face_add_response 401 none "Unauthorized").status = .PARTIAL ∧
    ¬ (classify_face_add_response 401 none "Unauthorized").status = .FATAL := by
  decide

/-- Claim C3 (amended): a parsed body with statusCode 1 and subStatusCode
"ok" classifies as SUCCESS in all four operations, but the additional
case-insensitive statusString "ok" disjunct exists only in the face-update
classification. -/
theorem success_rule_per_operation (status : Nat) (d : IsapiBody) (text : String)
    (h401 : status ≠ 401) :
    (d.statusCode = some 1 ∧ d.subStatusCode = "ok" →
      (classify_person_response status (some d) text).status = .SUCCESS ∧
      (classify_delete_response status (some d) text).status = .SUCCESS ∧
      (classify_face_add_response status (some d) text).status = .SUCCESS ∧
      (classify_face_update_response status (some d) text).status = .SUCCESS) ∧
    (d.statusCode = some 1 ∧ strToLower d.statusString = "ok" →
      (classify_face_update_response status (some d) text).status = .SUCCESS) := by
  constructor
  · rintro ⟨h1, h2⟩
    refine ⟨?_, ?_, ?_, ?_⟩
    · simp [classify_person_response, h401, h1, h2]
    · simp [classify_delete_response, h401, h1, h2]
    · simp [classify_face_add_response, h1, h2]
    · simp [classify_face_update_response, h1, h2]
  · rintro ⟨h1, h2⟩
    simp [classify_face_update_response, h1, h2]

/-- Claim C3 witness: a body with statusCode 1, empty subStatusCode and
statusString "Ok" classifies as SUCCESS in the face-update operation. -/
theorem success_rule_per_operation_witness :
    (200 : Nat) ≠ 401 ∧
    (classify_face_update_response 200 (some ⟨some 1, "", "Ok", ""⟩) "").status = .SUCCESS :=
  ⟨by decide,
    (success_rule_per_operation 200 ⟨some 1, "", "Ok", ""⟩ "" (by decide)).2 ⟨rfl, by decide⟩⟩

/-- Claim C3 counterexample: a body with statusCode 1, statusString "OK" but
an empty subStatusCode is NOT classified SUCCESS by the person-create,
person-delete or face-add classifiers, contrary to the claimed uniform rule. -/
theorem status_string_ok_not_uniform :
    ¬ (classify_person_response 200 (some ⟨some 1, "", "OK", ""⟩) "").status = .SUCCESS ∧
    ¬ (classify_delete_response 200 (some ⟨some 1, "", "OK", ""⟩) "").status = .SUCCESS ∧
    ¬ (classify_face_add_response 200 (some ⟨some 1, "", "OK", ""⟩) "").status = .SUCCESS ∧
    (classify_person_response 200 (some ⟨some 1, "", "OK", ""⟩) "").status = .FATAL := by
  decide

/-- Claim C4: on a parsed body (any non-401 HTTP status), person-create
classification is SUCCESS for statusCode 6 with subStatusCode
"employeeNoAlreadyExist" and FATAL for any other non-success body, while
person-delete classification is SUCCESS for statusCode 6 or a statusString
containing "not found" or "does not exist" case-insensitively, and PARTIAL
for any other non-success body. -/
theorem person_and_delete_error_severity (status : Nat) (d : IsapiBody) (text : String)
    (h401 : status ≠ 401) :
    (d.statusCode = some 6 ∧ d.subStatusCode = "employeeNoAlreadyExist" →
      (classify_person_response status (some d) text).status = .SUCCESS) ∧
    (¬ (d.statusCode = some 1 ∧ d.subStatusCode = "ok") →
      ¬ (d.statusCode = some 6 ∧ d.subStatusCode = "employeeNoAlreadyExist") →
      (classify_person_response status (some d) text).status = .FATAL) ∧
    (d.statusCode = some 6 ∨ strContains (strToLower d.statusString) "not found" = true
        ∨ strContains (strToLower d.statusString) "does not exist" = true →
      (classify_delete_response status (some d) text).status = .SUCCESS) ∧
    (¬ (d.statusCode = some 1 ∧ d.subStatusCode = "ok") →
      ¬ (d.statusCode = some 6 ∨ strContains (strToLower d.statusString) "not found" = true
        ∨ strContains (strToLower d.statusString) "does not exist" = true) →
      (classify_delete_response status (some d) text).status = .PARTIAL) := by
  refine ⟨?_, ?_, ?_, ?_⟩
  · rintro ⟨h6, hsub⟩
    simp [classify_person_response, h401, h6, hsub]
  · intro hn1 hn2
    simp [classify_person_response, h401, hn1, hn2]
  · intro hidem
    unfold classify_delete_response
    rw [if_neg h401]
    by_cases hok : d.statusCode = some 1 ∧ d.subStatusCode = "ok"
    · simp [hok]
    · simp [hok, hidem]
  · intro hn1 hn2
    simp [classify_delete_response, h401, hn1, hn2]

/-- Claim C4 witness: a non-401 response whose body carries statusCode 6 and
subStatusCode "employeeNoAlreadyExist" classifies as SUCCESS for
person-create; the same body classifies as SUCCESS for person-delete. -/
theorem person_and_delete_error_severity_witness :
    (400 : Nat) ≠ 401 ∧
    (classify_person_response 400 (some ⟨some 6, "employeeNoAlreadyExist", "", ""⟩) "").status = .SUCCESS ∧
    (classify_delete_response 400 (some ⟨some 6, "employeeNoAlreadyExist", "", ""⟩) "").status = .SUCCESS :=
  ⟨by decide,
    (person_and_delete_error_severity 400 ⟨some 6, "employeeNoAlreadyExist", "", ""⟩ "" (by decide)).1
      ⟨rfl, rfl⟩,
    (person_and_delete_error_severity 400 ⟨some 6, "employeeNoAlreadyExist", "", ""⟩ "" (by decide)).2.2.1
      (Or.inl rfl)⟩

/-- Claim C2 (amended): for every entry missing employeeNumber, each
orchestration-level operation (full sync, photo-only sync, photo update,
delete) returns SKIPPED at the validation step without invoking any network
sub-operation, and the ISAPI-level delete likewise returns SKIPPED before
issuing a request; the ISAPI-level createPerson, however, converts the
payload-validation failure into FATAL through its generic exception handler
(still making no network call), not SKIPPED. -/
theorem missing_employee_no_behaviour (a : Angajat)
    (h : natTruthy a.biometrie.employee_no = false)
    (personResult photoResult putResult postResult deleteResult : SyncResult)
    (device : Device) (t : Transport) :
    sync_angajat_to_device a personResult photoResult =
      (⟨.SKIPPED, "Missing employee_no - cannot sync without employee number", "validation"⟩, false) ∧
    sync_photo_only_to_device a photoResult =
      (⟨.SKIPPED, "Missing employee_no - cannot sync photo without employee number", "validation"⟩, false) ∧
    update_photo_to_device a putResult postResult =
      (⟨.SKIPPED, "Missing employee_no - cannot update photo without employee number", "validation"⟩,
        false, false) ∧
    delete_user_from_device a deleteResult =
      (⟨.SKIPPED, "Missing employee_no - cannot delete user without employee number", "validation"⟩, false) ∧
    delete_user_from_device_isapi device a t =
      (⟨.SKIPPED, "Missing employee_no - cannot delete user: employee_no is required for user deletion",
        "delete"⟩, false) ∧
    (create_person_on_device device a t).1 =
      ⟨.FATAL, "Unexpected error: employee_no is required for sync", "person"⟩ ∧
    (create_person_on_device device a t).2 = false := by
  refine ⟨?_, ?_, ?_, ?_, ?_, ?_, ?_⟩
  · simp [sync_angajat_to_device, h]
  · simp [sync_photo_only_to_device, h]
  · simp [update_photo_to_device, h]
  · simp [delete_user_from_device, h]
  · simp [delete_user_from_device_isapi, build_delete_user_payload, h]
  · simp [create_person_on_device, build_person_payload, h]
  · simp [create_person_on_device, build_person_payload, h]

/-- Claim C2 witness: an entry with no employee number is SKIPPED by the
full-sync orchestrator without invoking the photo step. -/
theorem missing_employee_no_behaviour_witness :
    natTruthy (Angajat.mk (Biometrie.mk none (some "photo1.jpg")) "Ion" "Pop" "" "activ").biometrie.employee_no = false ∧
    sync_angajat_to_device (Angajat.mk (Biometrie.mk none (some "photo1.jpg")) "Ion" "Pop" "" "activ")
        ⟨.SUCCESS, "", ""⟩ ⟨.SUCCESS, "", ""⟩ =
      (⟨.SKIPPED, "Missing employee_no - cannot sync without employee number", "validation"⟩, false) :=
  ⟨by decide,
    (missing_employee_no_behaviour
      (Angajat.mk (Biometrie.mk none (some "photo1.jpg")) "Ion" "Pop" "" "activ") (by decide)
      ⟨.SUCCESS, "", ""⟩ ⟨.SUCCESS, "", ""⟩ ⟨.SUCCESS, "", ""⟩ ⟨.SUCCESS, "", ""⟩ ⟨.SUCCESS, "", ""⟩
      (Device.mk none none none none none none none) (.resp 200 none "")).1⟩

/-- Claim C2 counterexample: called directly on an entry missing
employeeNumber, the ISAPI-level createPerson returns FATAL (through its
generic exception handler), not SKIPPED as claimed. -/
theorem create_person_missing_employee_no_not_skipped :
    (create_person_on_device (Device.mk none none none none none none none)
        (Angajat.mk (Biometrie.mk none (some "photo1.jpg")) "Ion" "Pop" "" "activ")
        (.resp 200 none "")).1 =
      ⟨.FATAL, "Unexpected error: employee_no is required for sync", "person"⟩ ∧
    ¬ (create_person_on_device (Device.mk none none none none none none none)
        (Angajat.mk (Biometrie.mk none (some "photo1.jpg")) "Ion" "Pop" "" "activ")
        (.resp 200 none "")).1.status = .SKIPPED := by
  decide

/-- Claim C5: whenever the create-person step returns SUCCESS with an
"already exists" message, the full-sync orchestrator never invokes the photo
step and returns a SUCCESS Outcome with step "person". -/
theorem already_exists_success_skips_photo (a : Angajat) (personResult photoResult : SyncResult)
    (hemp : natTruthy a.biometrie.employee_no = true)
    (hs : personResult.status = .SUCCESS)
    (hm : strContains (strToLower personResult.message) "already exists" = true) :
    sync_angajat_to_device a personResult photoResult =
      (⟨.SUCCESS, personResult.message ++ ". Photo step skipped (person already exists on device)",
        "person"⟩, false) := by
  simp [sync_angajat_to_device, hemp, hs, hm]

/-- Claim C5 witness: the "Person already exists on device" SUCCESS produced
by the person classifier makes the orchestrator skip the photo step. -/
theorem already_exists_success_skips_photo_witness :
    natTruthy (Angajat.mk (Biometrie.mk (some 1000) (some "photo1.jpg")) "Ion" "Pop" "" "activ").biometrie.employee_no = true ∧
    sync_angajat_to_device (Angajat.mk (Biometrie.mk (some 1000) (some "photo1.jpg")) "Ion" "Pop" "" "activ")
        ⟨.SUCCESS, "Person already exists on device", "person"⟩ ⟨.PARTIAL, "photo failed", "photo"⟩ =
      (⟨.SUCCESS, "Person already exists on device" ++ ". Photo step skipped (person already exists on device)",
        "person"⟩, false) :=
  ⟨by decide,
    already_exists_success_skips_photo
      (Angajat.mk (Biometrie.mk (some 1000) (some "photo1.jpg")) "Ion" "Pop" "" "activ")
      ⟨.SUCCESS, "Person already exists on device", "person"⟩ ⟨.PARTIAL, "photo failed", "photo"⟩
      (by decide) (by decide) (by decide)⟩

/-- Claim C6: in the update-with-fallback flow, once validation passes, a
SUCCESS PUT yields SUCCESS without the POST; a failed PUT with a SUCCESS
POST yields SUCCESS with a message noting the fallback and the PUT error;
and both failing yields PARTIAL with a message carrying both error
messages. -/
theorem update_with_fallback_flow (a : Angajat) (putResult postResult : SyncResult)
    (hemp : natTruthy a.biometrie.employee_no = true)
    (hfoto : strTruthy a.biometrie.foto_fata_url = true) :
    (putResult.status = .SUCCESS →
      update_photo_to_device a putResult postResult =
        (⟨.SUCCESS, "Face image updated successfully via PUT", "photo"⟩, true, false)) ∧
    (putResult.status ≠ .SUCCESS → postResult.status = .SUCCESS →
      update_photo_to_device a putResult postResult =
        (⟨.SUCCESS,
          "PUT update failed, but photo created successfully via POST fallback. PUT error: "
            ++ putResult.message, "photo"⟩, true, true)) ∧
    (putResult.status ≠ .SUCCESS → postResult.status ≠ .SUCCESS →
      update_photo_to_device a putResult postResult =
        (⟨.PARTIAL,
          "Both PUT update and POST create failed. PUT error: " ++ putResult.message
            ++ ". POST error: " ++ postResult.message, "photo"⟩, true, true)) := by
  refine ⟨fun h1 => ?_, fun h1 h2 => ?_, fun h1 h2 => ?_⟩
  · simp [update_photo_to_device, hemp, hfoto, h1]
  · simp [update_photo_to_device, hemp, hfoto, h1, h2]
  · simp [update_photo_to_device, hemp, hfoto, h1, h2]

/-- Claim C6 witness: with a PARTIAL PUT and a SUCCESS POST, the composite
returns SUCCESS with the fallback message. -/
theorem update_with_fallback_flow_witness :
    natTruthy (Angajat.mk (Biometrie.mk (some 1000) (some "photo1.jpg")) "Ion" "Pop" "" "activ").biometrie.employee_no = true ∧
    strTruthy (Angajat.mk (Biometrie.mk (some 1000) (some "photo1.jpg")) "Ion" "Pop" "" "activ").biometrie.foto_fata_url = true ∧
    update_photo_to_device (Angajat.mk (Biometrie.mk (some 1000) (some "photo1.jpg")) "Ion" "Pop" "" "activ")
        ⟨.PARTIAL, "put failed", "photo"⟩ ⟨.SUCCESS, "Face image added successfully", "photo"⟩ =
      (⟨.SUCCESS,
        "PUT update failed, but photo created successfully via POST fallback. PUT error: "
          ++ "put failed", "photo"⟩, true, true) :=
  ⟨by decide, by decide,
    (update_with_fallback_flow
      (Angajat.mk (Biometrie.mk (some 1000) (some "photo1.jpg")) "Ion" "Pop" "" "activ")
      ⟨.PARTIAL, "put failed", "photo"⟩ ⟨.SUCCESS, "Face image added successfully", "photo"⟩
      (by decide) (by decide)).2.1 (by decide) (by decide)⟩

/-- Claim C7: the effective request port is 80 when the configured port is
8000, 80 when the configured port is absent or zero, and the configured
value unchanged otherwise. -/
theorem port_substitution (p : Nat) (h0 : p ≠ 0) (h8000 : p ≠ 8000) :
    effective_port none = 80 ∧
    effective_port (some 0) = 80 ∧
    effective_port (some 8000) = 80 ∧
    effective_port (some p) = p := by
  refine ⟨rfl, rfl, rfl, ?_⟩
  simp [effective_port, h0, h8000]

/-- Claim C7 witness: a device configured with port 8080 keeps port 8080. -/
theorem port_substitution_witness :
    (8080 : Nat) ≠ 0 ∧ (8080 : Nat) ≠ 8000 ∧ effective_port (some 8080) = 8080 :=
  ⟨by decide, by decide, (port_substitution 8080 (by decide) (by decide)).2.2.2⟩

/-- Claim C8 (amended): in face-payload construction, a photo reference with
no http(s) scheme combined with a non-empty storage base yields
base/storage/v1/object/public/pontaj-photos/filename — except that when the
constructed URL itself starts with "http://" and contains ".supabase.co" it
is further rewritten to "https://"; an "http://" URL containing the storage
host has its scheme rewritten to "https://"; and a bare filename with no
storage base raises the validation error. -/
theorem face_url_normalization (a : Angajat) (f b : String)
    (hemp : natTruthy a.biometrie.employee_no = true)
    (hfoto : a.biometrie.foto_fata_url = some f) :
    (strStartsWith f "http://" = false → strStartsWith f "https://" = false →
      f ≠ "" → b ≠ "" →
      ¬ (strStartsWith (b ++ "/storage/v1/object/public/pontaj-photos/" ++ f) "http://" = true
          ∧ strContains (b ++ "/storage/v1/object/public/pontaj-photos/" ++ f) ".supabase.co" = true) →
      build_face_image_payload a (some b) =
        .ok ⟨"blackFD", "1", toString (a.biometrie.employee_no.getD 0),
          b ++ "/storage/v1/object/public/pontaj-photos/" ++ f⟩) ∧
    (strStartsWith f "http://" = true → strContains f ".supabase.co" = true →
      ∀ sb : Option String, build_face_image_payload a sb =
        .ok ⟨"blackFD", "1", toString (a.biometrie.employee_no.getD 0),
          "https://" ++ strDrop f 7⟩) ∧
    (strStartsWith f "http://" = false → strStartsWith f "https://" = false → f ≠ "" →
      build_face_image_payload a none =
        .error ("foto_fata_url is just a filename ('" ++ f
          ++ "') but supabase_url not provided to construct full URL")) := by
  refine ⟨?_, ?_, ?_⟩
  · intro hh1 hh2 hf hb hrw
    simp [build_face_image_payload, hemp, hfoto, strTruthy, hf, normalize_face_url, hh1, hh2, hb, hrw]
  · intro hh hsup sb
    have hf : f ≠ "" := by
      intro he
      rw [he] at hh
      exact absurd hh (by decide)
    simp [build_face_image_payload, hemp, hfoto, strTruthy, hf, normalize_face_url, hh, hsup]
  · intro hh1 hh2 hf
    simp [build_face_image_payload, hemp, hfoto, strTruthy, hf, normalize_face_url, hh1, hh2]

/-- Claim C8 witness: with the secure storage base of the end-to-end
scenario, a bare filename resolves to the public storage URL. -/
theorem face_url_normalization_witness :
    natTruthy (Angajat.mk (Biometrie.mk (some 1000) (some "photo1.jpg")) "Ion" "Pop" "" "activ").biometrie.employee_no = true ∧
    build_face_image_payload (Angajat.mk (Biometrie.mk (some 1000) (some "photo1.jpg")) "Ion" "Pop" "" "activ")
        (some "https://x.example.co") =
      .ok ⟨"blackFD", "1", toString ((some 1000 : Option Nat).getD 0),
        "https://x.example.co" ++ "/storage/v1/object/public/pontaj-photos/" ++ "photo1.jpg"⟩ :=
  ⟨by decide,
    (face_url_normalization
      (Angajat.mk (Biometrie.mk (some 1000) (some "photo1.jpg")) "Ion" "Pop" "" "activ")
      "photo1.jpg" "https://x.example.co" (by decide) rfl).1
      (by decide) (by decide) (by decide) (by decide) (by decide)⟩

/-- Claim C8 counterexample: a bare filename combined with an insecure
supabase.co storage base does not yield the claimed base-prefixed URL
verbatim — the scheme of the constructed URL is rewritten to https. -/
theorem bare_filename_with_insecure_base_rewritten :
    facePayloadURL (build_face_image_payload
        (Angajat.mk (Biometrie.mk (some 1000) (some "photo1.jpg")) "Ion" "Pop" "" "activ")
        (some "http://xxx.supabase.co")) =
      some "https://xxx.supabase.co/storage/v1/object/public/pontaj-photos/photo1.jpg" ∧
    ¬ facePayloadURL (build_face_image_payload
        (Angajat.mk (Biometrie.mk (some 1000) (some "photo1.jpg")) "Ion" "Pop" "" "activ")
        (some "http://xxx.supabase.co")) =
      some "http://xxx.supabase.co/storage/v1/object/public/pontaj-photos/photo1.jpg" := by
  decide

/-- Closed form of the driver loop of `sync_angajat_all_devices`: the
records extend in device order and the summary counters advance by the
per-kind tallies. -/
theorem device_loop_foldl_eq (op : Device → SyncResult) (devices : List Device) :
    ∀ (recs : List PerDeviceRecord) (s : Summary),
      devices.foldl (device_loop_step op) (recs, s) =
        (recs ++ devices.map (fun d => mkPerDeviceRecord d (op d)),
          ⟨s.success_count + (devices.filter (fun d => (op d).status = .SUCCESS)).length,
           s.partial_count + (devices.filter (fun d => (op d).status = .PARTIAL)).length,
           s.skipped_count + (devices.filter (fun d => (op d).status = .SKIPPED)).length,
           s.fatal_count + (devices.filter (fun d => (op d).status = .FATAL)).length⟩) := by
  induction devices with
  | nil =>
    intro recs s
    cases s
    simp
  | cons d rest ih =>
    intro recs s
    cases s with
    | mk sc pc kc fc =>
      cases hst : (op d).status <;>
        simp [device_loop_step, Summary.bump, hst, ih, List.filter_cons] <;>
        omega

/-- Closed form of the inner device loop of `sync_all_to_all_devices`. -/
theorem all_loop_foldl_eq (op : Device → SyncResult) (devices : List Device) :
    ∀ (recs : List DeviceResultRecord) (s : Summary),
      devices.foldl (all_loop_step op) (recs, s) =
        (recs ++ devices.map (fun d => mkDeviceResultRecord d (op d)),
          ⟨s.success_count + (devices.filter (fun d => (op d).status = .SUCCESS)).length,
           s.partial_count + (devices.filter (fun d => (op d).status = .PARTIAL)).length,
           s.skipped_count + (devices.filter (fun d => (op d).status = .SKIPPED)).length,
           s.fatal_count + (devices.filter (fun d => (op d).status = .FATAL)).length⟩) := by
  induction devices with
  | nil =>
    intro recs s
    cases s
    simp
  | cons d rest ih =>
    intro recs s
    cases s with
    | mk sc pc kc fc =>
      cases hst : (op d).status <;>
        simp [all_loop_step, Summary.bump, hst, ih, List.filter_cons] <;>
        omega

/-- Claim C9: in both bulk driver loops, the summary counters equal the
exact per-kind tallies of the per-device Outcomes, and every device in the
list contributes exactly one record in order — a FATAL Outcome for one
device never prevents later devices from being processed. -/
theorem bulk_driver_tallies_and_processes_all (devices : List Device) (op : Device → SyncResult) :
    (run_device_loop devices op).1 = devices.map (fun d => mkPerDeviceRecord d (op d)) ∧
    (run_device_loop devices op).1.length = devices.length ∧
    (run_device_loop devices op).2 =
      ⟨(devices.filter (fun d => (op d).status = .SUCCESS)).length,
       (devices.filter (fun d => (op d).status = .PARTIAL)).length,
       (devices.filter (fun d => (op d).status = .SKIPPED)).length,
       (devices.filter (fun d => (op d).status = .FATAL)).length⟩ ∧
    (run_all_devices_loop devices op).1 = devices.map (fun d => mkDeviceResultRecord d (op d)) ∧
    (run_all_devices_loop devices op).2 =
      ⟨(devices.filter (fun d => (op d).status = .SUCCESS)).length,
       (devices.filter (fun d => (op d).status = .PARTIAL)).length,
       (devices.filter (fun d => (op d).status = .SKIPPED)).length,
       (devices.filter (fun d => (op d).status = .FATAL)).length⟩ := by
  have h1 := device_loop_foldl_eq op devices [] ⟨0, 0, 0, 0⟩
  have h2 := all_loop_foldl_eq op devices [] ⟨0, 0, 0, 0⟩
  refine ⟨?_, ?_, ?_, ?_, ?_⟩ <;>
    simp [run_device_loop, run_all_devices_loop, h1, h2]

/-- Claim C10: the face-photo operations and the composite update flow never
return FATAL — every failure path yields PARTIAL, SKIPPED or SUCCESS. -/
theorem photo_operations_never_fatal (device : Device) (a : Angajat) (supabase_url : Option String)
    (t : Transport) (putResult postResult : SyncResult) :
    (add_face_image_to_device device a supabase_url t).1.status ≠ .FATAL ∧
    (update_face_image_to_device device a supabase_url t).1.status ≠ .FATAL ∧
    (update_photo_to_device a putResult postResult).1.status ≠ .FATAL := by
  refine ⟨?_, ?_, ?_⟩
  · cases hb : build_face_image_payload a supabase_url with
    | error e => simp [add_face_image_to_device, hb]
    | ok p =>
      cases t with
      | resp st body text =>
        simpa [add_face_image_to_device, hb] using classify_face_add_response_ne_fatal st body text
      | timeout exc => simp [add_face_image_to_device, hb]
      | connError exc => simp [add_face_image_to_device, hb]
      | otherError exc => simp [add_face_image_to_device, hb]
  · cases hb : build_face_image_update_payload a supabase_url with
    | error e => simp [update_face_image_to_device, hb]
    | ok p =>
      cases t with
      | resp st body text =>
        simpa [update_face_image_to_device, hb] using classify_face_update_response_ne_fatal st body text
      | timeout exc => simp [update_face_image_to_device, hb]
      | connError exc => simp [update_face_image_to_device, hb]
      | otherError exc => simp [update_face_image_to_device, hb]
  · unfold update_photo_to_device
    split_ifs <;> simp

end HikVisionBridge
